import Mathlib

/-!
Shallow embedding of the podman-driver library (src/src/lib.rs).

A `Cmd` models Rust's `std::process::Command` as the data the library puts
into it: the program path, the ordered argv list, and the ordered list of
environment-variable overrides.  Paths and OS strings are modelled as Lean
`String`s (the byte-exactness claim about `os_string_key_val` is additionally
modelled at the byte level as `List Nat`).  Process execution is modelled by
passing an explicit `exec : Cmd → Output` function describing the external
world's response to spawning a command.
-/

/-- Captured result of running an external process (`std::process::Output`):
exit-status success, stdout and stderr (modelled as text). -/
structure Output where
  success : Bool
  stdout : String
  stderr : String
deriving DecidableEq, Repr

/-- Model of `std::process::Command`: program, ordered argv, ordered env overrides. -/
structure Cmd where
  program : String
  args : List String
  envs : List (String × String)
deriving DecidableEq, Repr

def Cmd.new (prog : String) : Cmd := ⟨prog, [], []⟩

/-- Model of `Command::arg`: append one argv token. -/
def Cmd.arg (c : Cmd) (a : String) : Cmd := { c with args := c.args ++ [a] }

/-- Model of `Command::args`: append several argv tokens. -/
def Cmd.argsAppend (c : Cmd) (l : List String) : Cmd := { c with args := c.args ++ l }

/-- Model of `Command::env`: record one environment override for the child process. -/
def Cmd.env (c : Cmd) (k v : String) : Cmd := { c with envs := c.envs ++ [(k, v)] }

/-- Structure `PodmanCtx` from src/src/lib.rs lines 9–18. -/
structure PodmanCtx where
  podman_path : String
  module : Option String
  graphroot : Option String
  runroot : Option String
  parallax_mount_program : Option String
  ro_store : Option String
  podman_env : Option (List (String × String))

/-- Structure `ContainerCtx` from src/src/lib.rs lines 36–42. -/
structure ContainerCtx where
  name : String
  interactive : Bool
  detach : Bool
  set_env : Bool
  pidfile : Option String

/-- Mount spec of the external `raster::EDF` descriptor.  The library only ever
calls `mnt.to_volume_string()` on it, so it is modelled by that string
(`source:destination[:options]` per the spec's data model). -/
structure Mount where
  volume_string : String

def Mount.to_volume_string (m : Mount) : String := m.volume_string

/-- The execution descriptor `raster::EDF` (external crate): exactly the fields
the library reads in `commands::run_from_edf`. -/
structure EDF where
  image : String
  writable : Bool
  entrypoint : Bool
  workdir : String
  mounts : List Mount
  devices : List String
  env : List (String × String)
  annotations : List (String × String)

/-- Helper `cli_flag` (src/src/lib.rs lines 495–499): append `name` iff enabled. -/
def cli_flag (cmd : Cmd) (enabled : Bool) (name : String) : Cmd :=
  if enabled then cmd.arg name else cmd

/-- Helper `cli_opt` (src/src/lib.rs lines 502–507): append `[name, v]` iff a value is present. -/
def cli_opt (cmd : Cmd) (name : String) (val : Option String) : Cmd :=
  match val with
  | some v => (cmd.arg name).arg v
  | none => cmd

/-- Function `os_string_key_val` (src/src/lib.rs lines 523–529) at the string level:
`<key>=<val>` by plain concatenation. -/
def os_string_key_val (key val : String) : String := key ++ "=" ++ val

/-- Helper `cli_kv` (src/src/lib.rs lines 517–520): append `[name, key=val]`. -/
def cli_kv (cmd : Cmd) (name key val : String) : Cmd :=
  (cmd.arg name).arg (os_string_key_val key val)

/-- Helper `cli_storage_opt` (src/src/lib.rs lines 510–514). -/
def cli_storage_opt (cmd : Cmd) (name : String) (val : Option String) : Cmd :=
  match val with
  | some v => cli_kv cmd "--storage-opt" name v
  | none => cmd

/-- Note that `OsString::push` is byte concatenation; bytes are modelled as `List Nat`. -/
def os_string_push (buf s : List Nat) : List Nat := buf ++ s

/-- Function `os_string_key_val` at the byte level: push key, push the single byte `=`
(61), push val, starting from an empty buffer. -/
def os_string_key_val_bytes (key val : List Nat) : List Nat :=
  os_string_push (os_string_push (os_string_push [] key) [61]) val

namespace commands

/-- Compiler `commands::base` (src/src/lib.rs lines 47–74). -/
def base (podman_ctx : Option PodmanCtx) : Cmd :=
  match podman_ctx with
  | none => Cmd.new "podman"
  | some ctx =>
    let cmd := Cmd.new ctx.podman_path
    let cmd :=
      match ctx.podman_env with
      | some envs => envs.foldl (fun c kv => c.env kv.1 kv.2) cmd
      | none => cmd
    let cmd := cli_opt cmd "--root" ctx.graphroot
    cli_opt cmd "--runroot" ctx.runroot

/-- Compiler `commands::run` (src/src/lib.rs lines 76–95). -/
def run (podman_ctx : Option PodmanCtx) : Cmd :=
  let cmd := base podman_ctx
  let cmd :=
    match podman_ctx with
    | some ctx =>
      let cmd := cli_opt cmd "--module" ctx.module
      let cmd := cli_storage_opt cmd "additionalimagestore" ctx.ro_store
      cli_storage_opt cmd "mount_program" ctx.parallax_mount_program
    | none => cmd
  cmd.arg "run"

/-- Compiler `commands::run_from_edf` (src/src/lib.rs lines 97–148). -/
def run_from_edf (edf : EDF) (p_ctx : Option PodmanCtx) (c_ctx : ContainerCtx)
    (container_cmd : List String) : Cmd :=
  let cmd := run p_ctx
  let cmd := cmd.arg "--rm"
  let cmd := cli_flag cmd c_ctx.detach "--detach"
  let cmd := cli_flag cmd c_ctx.interactive "-it"
  let cmd := cli_flag cmd (!edf.writable) "--read-only"
  let cmd := cli_opt cmd "--name" (some c_ctx.name)
  let cmd := cli_opt cmd "--pidfile" c_ctx.pidfile
  let cmd := cli_flag cmd (!edf.entrypoint) "--entrypoint="
  let cmd := if edf.workdir.isEmpty then cmd else cli_opt cmd "--workdir" (some edf.workdir)
  let cmd := edf.mounts.foldl (fun c mnt => cli_opt c "--volume" (some mnt.to_volume_string)) cmd
  let cmd := edf.devices.foldl (fun c dev => cli_opt c "--device" (some dev)) cmd
  let cmd := edf.env.foldl (fun c kv => cli_kv c "--env" kv.1 kv.2) cmd
  let cmd := edf.annotations.foldl (fun c kv => cli_kv c "--annotation" kv.1 kv.2) cmd
  let cmd := cmd.arg edf.image
  cmd.argsAppend container_cmd

/-- Compiler `commands::pull` (src/src/lib.rs lines 150–154). -/
def pull (image : String) (podman_ctx : Option PodmanCtx) : Cmd :=
  (base podman_ctx).argsAppend ["pull", image]

/-- Compiler `commands::rmi` (src/src/lib.rs lines 156–169). -/
def rmi (image : String) (podman_ctx : Option PodmanCtx) : Cmd :=
  let cmd := base podman_ctx
  let cmd :=
    match podman_ctx with
    | some ctx => cli_storage_opt cmd "additionalimagestore" ctx.ro_store
    | none => cmd
  cmd.argsAppend ["rmi", image]

/-- Compiler `commands::rm` (src/src/lib.rs lines 171–184). -/
def rm (name : String) (podman_ctx : Option PodmanCtx) : Cmd :=
  let cmd := base podman_ctx
  let cmd :=
    match podman_ctx with
    | some ctx => cli_storage_opt cmd "additionalimagestore" ctx.ro_store
    | none => cmd
  cmd.argsAppend ["rm", name]

/-- Compiler `commands::stop` (src/src/lib.rs lines 186–199). -/
def stop (name : String) (podman_ctx : Option PodmanCtx) : Cmd :=
  let cmd := base podman_ctx
  let cmd :=
    match podman_ctx with
    | some ctx => cli_storage_opt cmd "additionalimagestore" ctx.ro_store
    | none => cmd
  cmd.argsAppend ["stop", name]

/-- Compiler `commands::image_exists` (src/src/lib.rs lines 201–214). -/
def image_exists (image : String) (podman_ctx : Option PodmanCtx) : Cmd :=
  let cmd := base podman_ctx
  let cmd :=
    match podman_ctx with
    | some ctx => cli_storage_opt cmd "additionalimagestore" ctx.ro_store
    | none => cmd
  cmd.argsAppend ["image", "exists", image]

/-- Compiler `commands::images` (src/src/lib.rs lines 216–229). -/
def images (podman_ctx : Option PodmanCtx) : Cmd :=
  let cmd := base podman_ctx
  let cmd :=
    match podman_ctx with
    | some ctx => cli_storage_opt cmd "additionalimagestore" ctx.ro_store
    | none => cmd
  cmd.arg "images"

/-- Compiler `commands::inspect` (src/src/lib.rs lines 231–250). -/
def inspect (target : String) (format : Option String) (podman_ctx : Option PodmanCtx) : Cmd :=
  let cmd := base podman_ctx
  let cmd :=
    match podman_ctx with
    | some ctx => cli_storage_opt cmd "additionalimagestore" ctx.ro_store
    | none => cmd
  let cmd := cmd.argsAppend ["--log-level=error", "inspect"]
  let cmd :=
    match format with
    | some fmt => cmd.argsAppend ["-f", fmt]
    | none => cmd
  cmd.arg target

/-- Compiler `commands::info` (src/src/lib.rs lines 252–261). -/
def info (format : Option String) (podman_ctx : Option PodmanCtx) : Cmd :=
  let cmd := (base podman_ctx).arg "info"
  match format with
  | some fmt => cmd.argsAppend ["-f", fmt]
  | none => cmd

/-- Compiler `commands::version` (src/src/lib.rs lines 263–269): built on `base None`,
so no `RuntimeContext` data can reach it. -/
def version (module : Option String) : Cmd :=
  let cmd := base none
  let cmd := cli_opt cmd "--module" module
  cmd.arg "version"

/-- Compiler `commands::parallax` (src/src/lib.rs lines 271–296).  The Rust code calls
`.expect(...)` on `graphroot` and on `ro_store`; a panic (no `Cmd` is ever
produced) is modelled as `none`. -/
def parallax (parallax_path : String) (podman_ctx : PodmanCtx)
    (image action : String) : Option Cmd :=
  match podman_ctx.graphroot, podman_ctx.ro_store with
  | some gr, some rs =>
    some { program := parallax_path
           args := ["--podmanRoot", gr, "--roStoragePath", rs,
                    "--" ++ action, "--image", image]
           envs := [] }
  | _, _ => none

end commands

/-- Rust's `str::trim`: drop leading and trailing whitespace.  Implemented
structurally over the character list so that it evaluates in the kernel. -/
def rustTrim (s : String) : String :=
  String.mk (((s.data.dropWhile Char.isWhitespace).reverse.dropWhile
    Char.isWhitespace).reverse)

/-- Digit-run part of Rust's `str::parse::<u32>`: one or more ASCII decimal
digits, value below `2^32`; anything else fails. -/
def parseDigits (ds : List Char) : Option Nat :=
  if ds.isEmpty then none
  else if ds.all (fun c => c.isDigit) then
    let n := ds.foldl (fun acc c => acc * 10 + (c.toNat - 48)) 0
    if n < 4294967296 then some n else none
  else none

/-- Rust's `str::parse::<u32>` on a list of characters: an optional leading
`+`, then one or more ASCII decimal digits, value below `2^32`; anything else
(including surrounding whitespace) fails. -/
def parseU32Chars (cs : List Char) : Option Nat :=
  parseDigits (if cs.head? = some '+' then cs.tail else cs)

/-- Rust's `str::parse::<u32>` on a string. -/
def parseU32 (s : String) : Option Nat := parseU32Chars s.data

/-- Error taxonomy of the two PID resolvers (`anyhow` error causes). -/
inductive PidError where
  | inspectFailed (msg : String)
  | parseFailed
  | ioFailed
deriving DecidableEq, Repr

/-- Resolver `get_container_pid` (src/src/lib.rs lines 407–422).  `exec` models running
the compiled inspect command and capturing its `Output`. -/
def get_container_pid (exec : Cmd → Output) (name : String)
    (podman_ctx : Option PodmanCtx) : Except PidError Nat :=
  let output := exec (commands.inspect name (some "\x7b\x7b.State.Pid\x7d\x7d") podman_ctx)
  if !output.success then
    Except.error (PidError.inspectFailed
      ("podman inspect failed: " ++ rustTrim output.stderr))
  else
    match parseU32 (rustTrim output.stdout) with
    | some pid => Except.ok pid
    | none => Except.error PidError.parseFailed

/-- Resolver `get_container_pid_from_default_file` (src/src/lib.rs lines 431–459).
`fs` models the filesystem: the readable text content of each path, `none`
meaning absent/unreadable.  `exec` models the `podman info` call made only
when no runroot is supplied.  Note the Rust code parses the file content
without trimming it. -/
def get_container_pid_from_default_file (exec : Cmd → Output)
    (fs : String → Option String) (container_id : String)
    (runroot : Option String) : Except PidError Nat :=
  let rr :=
    match runroot with
    | some rr => rr
    | none => rustTrim (exec (commands.info (some "\x7b\x7b.Store.RunRoot\x7d\x7d") none)).stdout
  let cnt_pidfile := rr ++ "/overlay-containers/" ++ container_id ++ "/userdata/pidfile"
  match fs cnt_pidfile with
  | none => Except.error PidError.ioFailed
  | some content =>
    match parseU32 content with
    | some pid => Except.ok pid
    | none => Except.error PidError.parseFailed

/-- Wrapper `parallax_execute_command` (src/src/lib.rs lines 461–477).  `none` models
the panic inside `commands::parallax` (the process is never spawned); when a
command is compiled, the outcome is the wrapper's `anyhow::Result<()>`. -/
def parallax_execute_command (exec : Cmd → Output) (parallax_path : String)
    (podman_ctx : PodmanCtx) (image action : String) :
    Option (Except String Unit) :=
  match commands.parallax parallax_path podman_ctx image action with
  | none => none
  | some cmd =>
    let output := exec cmd
    if !output.success then
      some (Except.error ("parallax " ++ action ++ " failed: " ++ rustTrim output.stderr))
    else
      some (Except.ok ())

/-- Facade `pull` (src/src/lib.rs lines 351–355): runs the command, discards
its `Output`, returns nothing. -/
def pull (exec : Cmd → Output) (image : String) (podman_ctx : Option PodmanCtx) : Unit :=
  let _ := exec (commands.pull image podman_ctx)
  ()

/-- Facade `rmi` (src/src/lib.rs lines 357–361). -/
def rmi (exec : Cmd → Output) (image : String) (podman_ctx : Option PodmanCtx) : Unit :=
  let _ := exec (commands.rmi image podman_ctx)
  ()

/-- Facade `rm` (src/src/lib.rs lines 363–367). -/
def rm (exec : Cmd → Output) (name : String) (podman_ctx : Option PodmanCtx) : Unit :=
  let _ := exec (commands.rm name podman_ctx)
  ()

/-- Facade `stop` (src/src/lib.rs lines 369–373). -/
def stop (exec : Cmd → Output) (name : String) (podman_ctx : Option PodmanCtx) : Unit :=
  let _ := exec (commands.stop name podman_ctx)
  ()

/-- Tokens contributed by a conditional flag. -/
def flagIf (b : Bool) (name : String) : List String := if b then [name] else []

/-- Tokens contributed by an optional `[name, value]` pair. -/
def optPair (name : String) : Option String → List String
  | some v => [name, v]
  | none => []

/-- Tokens contributed by an optional `--storage-opt name=value` pair. -/
def storagePair (name : String) : Option String → List String
  | some v => ["--storage-opt", name ++ "=" ++ v]
  | none => []

/-- Tokens `a` and `b` occur contiguously and in order inside `l`. -/
def containsPair (l : List String) (a b : String) : Prop :=
  ∃ l1 l2, l = l1 ++ a :: b :: l2

/-- Recognizes argv tokens that start with the literal `--entrypoint=`. -/
def epPred (t : String) : Bool := "--entrypoint=".data.isPrefixOf t.data

/-- Concrete runtime context used to instantiate theorems with hypotheses. -/
def wCtx : PodmanCtx :=
  ⟨"/usr/bin/podman", some "hpc", some "/gr", some "/rr", some "/mp", some "/store", none⟩

/-- Concrete container context used to instantiate theorems with hypotheses. -/
def wCCtx : ContainerCtx := ⟨"edf_test", true, true, true, none⟩

/-- Concrete execution descriptor used to instantiate theorems with hypotheses. -/
def wEDF : EDF :=
  { image := "ubuntu:24.04", writable := false, entrypoint := false,
    workdir := "/develop", mounts := [⟨"/a:/b"⟩], devices := ["/dev/fuse"],
    env := [("K", "V")], annotations := [("A", "B")] }

/-- Concrete filesystem with a pidfile whose content has a trailing newline. -/
def fsNewline : String → Option String := fun p =>
  if p = "/rr/overlay-containers/c1/userdata/pidfile" then some "5\n" else none

/-- Concrete filesystem with a pidfile holding a bare decimal number. -/
def fsPlain : String → Option String := fun p =>
  if p = "/rr/overlay-containers/c1/userdata/pidfile" then some "51234" else none

/-- External world that never gets consulted in pidfile tests. -/
def execNull : Cmd → Output := fun _ => ⟨true, "", ""⟩

theorem cli_flag_args (c : Cmd) (b : Bool) (n : String) :
    (cli_flag c b n).args = c.args ++ flagIf b n := by
  cases b <;> simp [cli_flag, flagIf, Cmd.arg]

theorem cli_opt_args (c : Cmd) (n : String) (v : Option String) :
    (cli_opt c n v).args = c.args ++ optPair n v := by
  cases v <;> simp [cli_opt, optPair, Cmd.arg]

theorem cli_kv_args (c : Cmd) (n k v : String) :
    (cli_kv c n k v).args = c.args ++ [n, k ++ "=" ++ v] := by
  simp [cli_kv, os_string_key_val, Cmd.arg]

theorem cli_storage_opt_args (c : Cmd) (n : String) (v : Option String) :
    (cli_storage_opt c n v).args = c.args ++ storagePair n v := by
  cases v <;> simp [cli_storage_opt, cli_kv_args, storagePair]

theorem cmd_arg_args (c : Cmd) (a : String) : (c.arg a).args = c.args ++ [a] := rfl

theorem cmd_argsAppend_args (c : Cmd) (l : List String) :
    (c.argsAppend l).args = c.args ++ l := rfl

theorem foldl_env_args (l : List (String × String)) (c : Cmd) :
    (l.foldl (fun c kv => c.env kv.1 kv.2) c).args = c.args := by
  induction l generalizing c with
  | nil => rfl
  | cons kv t ih => rw [List.foldl_cons, ih]; rfl

theorem foldl_env_envs (l : List (String × String)) (c : Cmd) :
    (l.foldl (fun c kv => c.env kv.1 kv.2) c).envs = c.envs ++ l := by
  induction l generalizing c with
  | nil => simp
  | cons kv t ih => rw [List.foldl_cons, ih]; simp [Cmd.env]

theorem foldl_cli_opt_args {α : Type} (flag : String) (f : α → String)
    (l : List α) (c : Cmd) :
    (l.foldl (fun c x => cli_opt c flag (some (f x))) c).args
      = c.args ++ l.flatMap (fun x => [flag, f x]) := by
  induction l generalizing c with
  | nil => simp
  | cons x t ih => rw [List.foldl_cons, ih]; simp [cli_opt, Cmd.arg]

theorem foldl_cli_kv_args (flag : String) (l : List (String × String)) (c : Cmd) :
    (l.foldl (fun c kv => cli_kv c flag kv.1 kv.2) c).args
      = c.args ++ l.flatMap (fun kv => [flag, kv.1 ++ "=" ++ kv.2]) := by
  induction l generalizing c with
  | nil => simp
  | cons kv t ih => rw [List.foldl_cons, ih]; simp [cli_kv, os_string_key_val, Cmd.arg]

theorem base_args (ctx : PodmanCtx) :
    (commands.base (some ctx)).args
      = optPair "--root" ctx.graphroot ++ optPair "--runroot" ctx.runroot := by
  cases h : ctx.podman_env <;>
    simp [commands.base, h, cli_opt_args, foldl_env_args, Cmd.new]

theorem base_envs (ctx : PodmanCtx) :
    (commands.base (some ctx)).envs = ctx.podman_env.getD [] := by
  cases h : ctx.podman_env <;> cases hg : ctx.graphroot <;> cases hr : ctx.runroot <;>
    simp [commands.base, h, hg, hr, cli_opt, foldl_env_envs, Cmd.new, Cmd.arg]

theorem run_args (ctx : PodmanCtx) :
    (commands.run (some ctx)).args
      = optPair "--root" ctx.graphroot ++ optPair "--runroot" ctx.runroot
        ++ optPair "--module" ctx.module
        ++ storagePair "additionalimagestore" ctx.ro_store
        ++ storagePair "mount_program" ctx.parallax_mount_program
        ++ ["run"] := by
  simp [commands.run, base_args, cli_opt_args, cli_storage_opt_args, cmd_arg_args]

theorem run_from_edf_args (edf : EDF) (p_ctx : Option PodmanCtx)
    (c_ctx : ContainerCtx) (container_cmd : List String) :
    (commands.run_from_edf edf p_ctx c_ctx container_cmd).args
      = (commands.run p_ctx).args
        ++ ["--rm"]
        ++ flagIf c_ctx.detach "--detach"
        ++ flagIf c_ctx.interactive "-it"
        ++ flagIf (!edf.writable) "--read-only"
        ++ ["--name", c_ctx.name]
        ++ optPair "--pidfile" c_ctx.pidfile
        ++ flagIf (!edf.entrypoint) "--entrypoint="
        ++ (if edf.workdir.isEmpty then [] else ["--workdir", edf.workdir])
        ++ edf.mounts.flatMap (fun mnt => ["--volume", mnt.to_volume_string])
        ++ edf.devices.flatMap (fun dev => ["--device", dev])
        ++ edf.env.flatMap (fun kv => ["--env", kv.1 ++ "=" ++ kv.2])
        ++ edf.annotations.flatMap (fun kv => ["--annotation", kv.1 ++ "=" ++ kv.2])
        ++ [edf.image] ++ container_cmd := by
  by_cases hw : edf.workdir.isEmpty <;>
    simp [commands.run_from_edf, hw, cli_flag_args, cli_opt_args, cli_kv_args,
      cmd_arg_args, cmd_argsAppend_args, foldl_cli_opt_args, foldl_cli_kv_args,
      optPair, List.append_assoc]

/-- C1: for a RuntimeContext with all optional fields set, any ContainerCtx,
any ExecutionDescriptor and any container command, the compiled run argv is
exactly: `--root`, `--runroot`, `--module`, the two `--storage-opt` pairs,
`run`, `--rm`, the `--detach`/`-it`/`--read-only` gated flags, `--name`, the
optional `--pidfile` pair, the gated `--entrypoint=` flag, the optional
`--workdir` pair, the contiguous `--volume`, `--device`, `--env` and
`--annotation` pairs in descriptor order, the image, and the container
command, in that order with no other tokens. -/
theorem run_from_edf_exact_sequence
    (pp m gr rr prog store : String) (penv : Option (List (String × String)))
    (name : String) (interactive detach set_env : Bool) (pidfile : Option String)
    (edf : EDF) (container_cmd : List String) :
    (commands.run_from_edf edf
        (some ⟨pp, some m, some gr, some rr, some prog, some store, penv⟩)
        ⟨name, interactive, detach, set_env, pidfile⟩ container_cmd).args
      = ["--root", gr, "--runroot", rr, "--module", m,
         "--storage-opt", "additionalimagestore=" ++ store,
         "--storage-opt", "mount_program=" ++ prog,
         "run", "--rm"]
        ++ (if detach then ["--detach"] else [])
        ++ (if interactive then ["-it"] else [])
        ++ (if edf.writable then [] else ["--read-only"])
        ++ ["--name", name]
        ++ (match pidfile with | some p => ["--pidfile", p] | none => [])
        ++ (if edf.entrypoint then [] else ["--entrypoint="])
        ++ (if edf.workdir.isEmpty then [] else ["--workdir", edf.workdir])
        ++ edf.mounts.flatMap (fun mnt => ["--volume", mnt.to_volume_string])
        ++ edf.devices.flatMap (fun dev => ["--device", dev])
        ++ edf.env.flatMap (fun kv => ["--env", kv.1 ++ "=" ++ kv.2])
        ++ edf.annotations.flatMap (fun kv => ["--annotation", kv.1 ++ "=" ++ kv.2])
        ++ [edf.image] ++ container_cmd := by
  rw [run_from_edf_args, run_args]
  cases detach <;> cases interactive <;> cases hw : edf.writable <;>
    cases he : edf.entrypoint <;> cases pidfile <;>
    by_cases hwd : edf.workdir.isEmpty <;>
    simp [optPair, storagePair, flagIf, hw, he, hwd, List.append_assoc]

theorem filter_pairs_nil {α : Type} (flag : String) (f : α → String)
    (l : List α) (hflag : epPred flag = false) (hf : ∀ x ∈ l, epPred (f x) = false) :
    (l.flatMap (fun x => [flag, f x])).filter epPred = [] := by
  rw [List.filter_eq_nil_iff]
  intro a ha
  obtain ⟨x, hx, hax⟩ := List.mem_flatMap.mp ha
  simp only [List.mem_cons, List.not_mem_nil, or_false] at hax
  rcases hax with rfl | rfl
  · simp [hflag]
  · simp [hf x hx]

theorem filter_flagIf_nil (b : Bool) (n : String) (hn : epPred n = false) :
    (flagIf b n).filter epPred = [] := by
  cases b <;> simp [flagIf, hn]

/-- C6: the compiled run argv contains the token `--entrypoint=` exactly when
the descriptor requests clearing the entrypoint, contains it at most once, and
(provided no caller-supplied value itself starts with `--entrypoint=`) contains
no token carrying a non-empty entrypoint value: filtering the argv for tokens
starting with `--entrypoint=` yields exactly the gated bare token. -/
theorem entrypoint_gate (edf : EDF) (p_ctx : Option PodmanCtx) (c_ctx : ContainerCtx)
    (container_cmd : List String)
    (hctx : ∀ t ∈ (commands.run p_ctx).args, epPred t = false)
    (hname : epPred c_ctx.name = false)
    (hpid : ∀ p, c_ctx.pidfile = some p → epPred p = false)
    (hwd : epPred edf.workdir = false)
    (hmnt : ∀ mnt ∈ edf.mounts, epPred mnt.to_volume_string = false)
    (hdev : ∀ d ∈ edf.devices, epPred d = false)
    (henv : ∀ kv ∈ edf.env, epPred (kv.1 ++ "=" ++ kv.2) = false)
    (hann : ∀ kv ∈ edf.annotations, epPred (kv.1 ++ "=" ++ kv.2) = false)
    (himg : epPred edf.image = false)
    (hcmd : ∀ t ∈ container_cmd, epPred t = false) :
    (commands.run_from_edf edf p_ctx c_ctx container_cmd).args.filter epPred
      = (if edf.entrypoint then [] else ["--entrypoint="])
    ∧ (("--entrypoint=" ∈ (commands.run_from_edf edf p_ctx c_ctx container_cmd).args)
        ↔ edf.entrypoint = false)
    ∧ (commands.run_from_edf edf p_ctx c_ctx container_cmd).args.count "--entrypoint=" ≤ 1 := by
  have hrun : (commands.run p_ctx).args.filter epPred = [] := by
    rw [List.filter_eq_nil_iff]; intro a ha; simp [hctx a ha]
  have hfil : (commands.run_from_edf edf p_ctx c_ctx container_cmd).args.filter epPred
      = (if edf.entrypoint then [] else ["--entrypoint="]) := by
    rw [run_from_edf_args]
    simp only [List.filter_append]
    have hrm : List.filter epPred ["--rm"] = [] := by decide
    have h1 : List.filter epPred ["--name", c_ctx.name] = [] := by
      simp [List.filter_cons, hname, show epPred "--name" = false by decide]
    have h2 : (optPair "--pidfile" c_ctx.pidfile).filter epPred = [] := by
      cases hp : c_ctx.pidfile with
      | none => simp [optPair]
      | some p =>
        simp [optPair, List.filter_cons, hpid p hp,
          show epPred "--pidfile" = false by decide]
    have h3 : (if edf.workdir.isEmpty then ([] : List String)
        else ["--workdir", edf.workdir]).filter epPred = [] := by
      by_cases hw : edf.workdir.isEmpty <;>
        simp [hw, List.filter_cons, hwd, show epPred "--workdir" = false by decide]
    have h4 : (flagIf (!edf.entrypoint) "--entrypoint=").filter epPred
        = (if edf.entrypoint then [] else ["--entrypoint="]) := by
      cases edf.entrypoint <;>
        simp [flagIf, List.filter_cons, show epPred "--entrypoint=" = true by decide]
    have h5 : List.filter epPred [edf.image] = [] := by
      simp [List.filter_cons, himg]
    have h6 : container_cmd.filter epPred = [] := by
      rw [List.filter_eq_nil_iff]; intro a ha; simp [hcmd a ha]
    rw [hrun, hrm, filter_flagIf_nil _ _ (by decide), filter_flagIf_nil _ _ (by decide),
      filter_flagIf_nil _ _ (by decide),
      filter_pairs_nil "--volume" Mount.to_volume_string edf.mounts (by decide) hmnt,
      filter_pairs_nil "--device" (fun d => d) edf.devices (by decide) hdev,
      filter_pairs_nil "--env" (fun kv => kv.1 ++ "=" ++ kv.2) edf.env (by decide) henv,
      filter_pairs_nil "--annotation" (fun kv => kv.1 ++ "=" ++ kv.2) edf.annotations
        (by decide) hann,
      h1, h2, h3, h4, h5, h6]
    simp
  refine ⟨hfil, ?_, ?_⟩
  · cases he : edf.entrypoint with
    | false =>
      simp only [he, if_neg Bool.false_ne_true] at hfil
      constructor
      · intro _; rfl
      · intro _
        have : "--entrypoint=" ∈ (commands.run_from_edf edf p_ctx c_ctx
            container_cmd).args.filter epPred := by
          rw [hfil]; exact List.mem_singleton.mpr rfl
        exact (List.mem_filter.mp this).1
    | true =>
      simp only [he, if_pos rfl] at hfil
      constructor
      · intro hmem
        have : "--entrypoint=" ∈ (commands.run_from_edf edf p_ctx c_ctx
            container_cmd).args.filter epPred :=
          List.mem_filter.mpr ⟨hmem, by decide⟩
        rw [hfil] at this
        exact absurd this (List.not_mem_nil _)
      · intro h; exact absurd h (by simp)
  · have hc : (commands.run_from_edf edf p_ctx c_ctx container_cmd).args.count
        "--entrypoint="
        = (commands.run_from_edf edf p_ctx c_ctx container_cmd).args.countP
          (fun t => t == "--entrypoint=") := rfl
    rw [hc]
    have hmono : (commands.run_from_edf edf p_ctx c_ctx container_cmd).args.countP
        (fun t => t == "--entrypoint=")
        ≤ (commands.run_from_edf edf p_ctx c_ctx container_cmd).args.countP epPred := by
      refine List.countP_mono_left ?_
      intro a _ hbeq
      have : a = "--entrypoint=" := by
        simpa using hbeq
      rw [this]; decide
    refine le_trans hmono ?_
    rw [List.countP_eq_length_filter, hfil]
    cases edf.entrypoint <;> simp

/-- Witness for `entrypoint_gate` at a concrete descriptor and context. -/
theorem entrypoint_gate_witness :
    (commands.run_from_edf wEDF (some wCtx) wCCtx ["bash"]).args.filter epPred
      = (if wEDF.entrypoint then [] else ["--entrypoint="])
    ∧ (("--entrypoint=" ∈ (commands.run_from_edf wEDF (some wCtx) wCCtx ["bash"]).args)
        ↔ wEDF.entrypoint = false)
    ∧ (commands.run_from_edf wEDF (some wCtx) wCCtx ["bash"]).args.count "--entrypoint=" ≤ 1 :=
  entrypoint_gate wEDF (some wCtx) wCCtx ["bash"] (by decide) (by decide)
    (fun p hp => Option.noConfusion hp) (by decide) (by decide) (by decide)
    (by decide) (by decide) (by decide) (by decide)

theorem pull_args (image : String) (p_ctx : Option PodmanCtx) :
    (commands.pull image p_ctx).args = (commands.base p_ctx).args ++ ["pull", image] := by
  simp [commands.pull, cmd_argsAppend_args]

theorem rmi_args (image : String) (ctx : PodmanCtx) :
    (commands.rmi image (some ctx)).args
      = (commands.base (some ctx)).args
        ++ storagePair "additionalimagestore" ctx.ro_store ++ ["rmi", image] := by
  simp [commands.rmi, cli_storage_opt_args, cmd_argsAppend_args]

theorem rm_args (name : String) (ctx : PodmanCtx) :
    (commands.rm name (some ctx)).args
      = (commands.base (some ctx)).args
        ++ storagePair "additionalimagestore" ctx.ro_store ++ ["rm", name] := by
  simp [commands.rm, cli_storage_opt_args, cmd_argsAppend_args]

theorem stop_args (name : String) (ctx : PodmanCtx) :
    (commands.stop name (some ctx)).args
      = (commands.base (some ctx)).args
        ++ storagePair "additionalimagestore" ctx.ro_store ++ ["stop", name] := by
  simp [commands.stop, cli_storage_opt_args, cmd_argsAppend_args]

theorem image_exists_args (image : String) (ctx : PodmanCtx) :
    (commands.image_exists image (some ctx)).args
      = (commands.base (some ctx)).args
        ++ storagePair "additionalimagestore" ctx.ro_store ++ ["image", "exists", image] := by
  simp [commands.image_exists, cli_storage_opt_args, cmd_argsAppend_args]

theorem images_args (ctx : PodmanCtx) :
    (commands.images (some ctx)).args
      = (commands.base (some ctx)).args
        ++ storagePair "additionalimagestore" ctx.ro_store ++ ["images"] := by
  simp [commands.images, cli_storage_opt_args, cmd_arg_args]

theorem inspect_args (target : String) (format : Option String) (ctx : PodmanCtx) :
    (commands.inspect target format (some ctx)).args
      = (commands.base (some ctx)).args
        ++ storagePair "additionalimagestore" ctx.ro_store
        ++ ["--log-level=error", "inspect"] ++ optPair "-f" format ++ [target] := by
  cases format <;>
    simp [commands.inspect, cli_storage_opt_args, cmd_argsAppend_args, cmd_arg_args,
      optPair, List.append_assoc]

/-- C5: with the secondary read-only store configured, remove-image,
remove-container, stop, image-exists, list-images and inspect each carry the
contiguous pair `--storage-opt additionalimagestore=<path>`, while pull's argv
never contains a `--storage-opt` token. -/
theorem storage_opt_injection (ppath : String) (m gr rr prog : Option String)
    (penv : Option (List (String × String))) (store image name target : String)
    (fmt : Option String)
    (hgr : gr ≠ some "--storage-opt") (hrr : rr ≠ some "--storage-opt")
    (himg : image ≠ "--storage-opt") :
    containsPair (commands.rmi image (some ⟨ppath, m, gr, rr, prog, some store, penv⟩)).args
      "--storage-opt" ("additionalimagestore=" ++ store)
    ∧ containsPair (commands.rm name (some ⟨ppath, m, gr, rr, prog, some store, penv⟩)).args
      "--storage-opt" ("additionalimagestore=" ++ store)
    ∧ containsPair (commands.stop name (some ⟨ppath, m, gr, rr, prog, some store, penv⟩)).args
      "--storage-opt" ("additionalimagestore=" ++ store)
    ∧ containsPair (commands.image_exists image
        (some ⟨ppath, m, gr, rr, prog, some store, penv⟩)).args
      "--storage-opt" ("additionalimagestore=" ++ store)
    ∧ containsPair (commands.images (some ⟨ppath, m, gr, rr, prog, some store, penv⟩)).args
      "--storage-opt" ("additionalimagestore=" ++ store)
    ∧ containsPair (commands.inspect target fmt
        (some ⟨ppath, m, gr, rr, prog, some store, penv⟩)).args
      "--storage-opt" ("additionalimagestore=" ++ store)
    ∧ "--storage-opt" ∉ (commands.pull image
        (some ⟨ppath, m, gr, rr, prog, some store, penv⟩)).args := by
  refine ⟨?_, ?_, ?_, ?_, ?_, ?_, ?_⟩
  · exact ⟨(commands.base (some ⟨ppath, m, gr, rr, prog, some store, penv⟩)).args,
      ["rmi", image], by simp [rmi_args, storagePair]⟩
  · exact ⟨(commands.base (some ⟨ppath, m, gr, rr, prog, some store, penv⟩)).args,
      ["rm", name], by simp [rm_args, storagePair]⟩
  · exact ⟨(commands.base (some ⟨ppath, m, gr, rr, prog, some store, penv⟩)).args,
      ["stop", name], by simp [stop_args, storagePair]⟩
  · exact ⟨(commands.base (some ⟨ppath, m, gr, rr, prog, some store, penv⟩)).args,
      ["image", "exists", image], by simp [image_exists_args, storagePair]⟩
  · exact ⟨(commands.base (some ⟨ppath, m, gr, rr, prog, some store, penv⟩)).args,
      ["images"], by simp [images_args, storagePair]⟩
  · exact ⟨(commands.base (some ⟨ppath, m, gr, rr, prog, some store, penv⟩)).args,
      ["--log-level=error", "inspect"] ++ optPair "-f" fmt ++ [target],
      by simp [inspect_args, storagePair]⟩
  · rw [pull_args, base_args]
    intro hmem
    rcases List.mem_append.mp hmem with hmem | hmem
    · rcases List.mem_append.mp hmem with hmem | hmem
      · cases hg : gr with
        | none => rw [hg] at hmem; simp [optPair] at hmem
        | some g =>
          rw [hg] at hmem
          simp only [optPair, List.mem_cons, List.not_mem_nil, or_false] at hmem
          rcases hmem with h | h
          · exact absurd h (by decide)
          · exact hgr (by rw [hg, h])
      · cases hr : rr with
        | none => rw [hr] at hmem; simp [optPair] at hmem
        | some r =>
          rw [hr] at hmem
          simp only [optPair, List.mem_cons, List.not_mem_nil, or_false] at hmem
          rcases hmem with h | h
          · exact absurd h (by decide)
          · exact hrr (by rw [hr, h])
    · simp only [List.mem_cons, List.not_mem_nil, or_false] at hmem
      rcases hmem with h | h
      · exact absurd h (by decide)
      · exact himg h.symm

/-- Witness for `storage_opt_injection` at concrete context values. -/
theorem storage_opt_injection_witness :
    containsPair (commands.rmi "img" (some ⟨"/usr/bin/podman", some "hpc", some "/gr",
        some "/rr", some "/mp", some "/store", none⟩)).args
      "--storage-opt" ("additionalimagestore=" ++ "/store")
    ∧ containsPair (commands.rm "cnt" (some ⟨"/usr/bin/podman", some "hpc", some "/gr",
        some "/rr", some "/mp", some "/store", none⟩)).args
      "--storage-opt" ("additionalimagestore=" ++ "/store")
    ∧ containsPair (commands.stop "cnt" (some ⟨"/usr/bin/podman", some "hpc", some "/gr",
        some "/rr", some "/mp", some "/store", none⟩)).args
      "--storage-opt" ("additionalimagestore=" ++ "/store")
    ∧ containsPair (commands.image_exists "img" (some ⟨"/usr/bin/podman", some "hpc",
        some "/gr", some "/rr", some "/mp", some "/store", none⟩)).args
      "--storage-opt" ("additionalimagestore=" ++ "/store")
    ∧ containsPair (commands.images (some ⟨"/usr/bin/podman", some "hpc", some "/gr",
        some "/rr", some "/mp", some "/store", none⟩)).args
      "--storage-opt" ("additionalimagestore=" ++ "/store")
    ∧ containsPair (commands.inspect "cnt" (some "\x7b\x7b.State.Pid\x7d\x7d")
        (some ⟨"/usr/bin/podman", some "hpc", some "/gr", some "/rr", some "/mp",
          some "/store", none⟩)).args
      "--storage-opt" ("additionalimagestore=" ++ "/store")
    ∧ "--storage-opt" ∉ (commands.pull "img" (some ⟨"/usr/bin/podman", some "hpc",
        some "/gr", some "/rr", some "/mp", some "/store", none⟩)).args :=
  storage_opt_injection "/usr/bin/podman" (some "hpc") (some "/gr") (some "/rr")
    (some "/mp") none "/store" "img" "cnt" "cnt" (some "\x7b\x7b.State.Pid\x7d\x7d")
    (by decide) (by decide) (by decide)

/-- C7: the version invocation ignores every RuntimeContext root path: its argv
is exactly the optional `--module <module>` pair followed by the literal
`version`, and (for a module value that is not itself one of those flags)
contains no `--root`, `--runroot` or `--storage-opt` token. -/
theorem version_invocation (m : Option String)
    (h1 : m ≠ some "--root") (h2 : m ≠ some "--runroot")
    (h3 : m ≠ some "--storage-opt") :
    (commands.version m).args = optPair "--module" m ++ ["version"]
    ∧ "--root" ∉ (commands.version m).args
    ∧ "--runroot" ∉ (commands.version m).args
    ∧ "--storage-opt" ∉ (commands.version m).args := by
  have hargs : (commands.version m).args = optPair "--module" m ++ ["version"] := by
    cases m <;> simp [commands.version, commands.base, cli_opt_args, cmd_arg_args,
      Cmd.new, optPair]
  refine ⟨hargs, ?_, ?_, ?_⟩ <;> rw [hargs] <;> intro hmem <;>
    rcases List.mem_append.mp hmem with hmem | hmem
  · cases hm : m with
    | none => rw [hm] at hmem; simp [optPair] at hmem
    | some s =>
      rw [hm] at hmem
      simp only [optPair, List.mem_cons, List.not_mem_nil, or_false] at hmem
      rcases hmem with h | h
      · exact absurd h (by decide)
      · exact h1 (by rw [hm, h])
  · simp only [List.mem_cons, List.not_mem_nil, or_false] at hmem
    exact absurd hmem (by decide)
  · cases hm : m with
    | none => rw [hm] at hmem; simp [optPair] at hmem
    | some s =>
      rw [hm] at hmem
      simp only [optPair, List.mem_cons, List.not_mem_nil, or_false] at hmem
      rcases hmem with h | h
      · exact absurd h (by decide)
      · exact h2 (by rw [hm, h])
  · simp only [List.mem_cons, List.not_mem_nil, or_false] at hmem
    exact absurd hmem (by decide)
  · cases hm : m with
    | none => rw [hm] at hmem; simp [optPair] at hmem
    | some s =>
      rw [hm] at hmem
      simp only [optPair, List.mem_cons, List.not_mem_nil, or_false] at hmem
      rcases hmem with h | h
      · exact absurd h (by decide)
      · exact h3 (by rw [hm, h])
  · simp only [List.mem_cons, List.not_mem_nil, or_false] at hmem
    exact absurd hmem (by decide)

/-- Witness for `version_invocation` with module `hpc`. -/
theorem version_invocation_witness :
    (commands.version (some "hpc")).args = optPair "--module" (some "hpc") ++ ["version"]
    ∧ "--root" ∉ (commands.version (some "hpc")).args
    ∧ "--runroot" ∉ (commands.version (some "hpc")).args
    ∧ "--storage-opt" ∉ (commands.version (some "hpc")).args :=
  version_invocation (some "hpc") (by decide) (by decide) (by decide)

theorem cmd_arg_envs (c : Cmd) (a : String) : (c.arg a).envs = c.envs := rfl

theorem cmd_argsAppend_envs (c : Cmd) (l : List String) :
    (c.argsAppend l).envs = c.envs := rfl

theorem cli_flag_envs (c : Cmd) (b : Bool) (n : String) :
    (cli_flag c b n).envs = c.envs := by
  cases b <;> rfl

theorem cli_opt_envs (c : Cmd) (n : String) (v : Option String) :
    (cli_opt c n v).envs = c.envs := by
  cases v <;> rfl

theorem cli_kv_envs (c : Cmd) (n k v : String) : (cli_kv c n k v).envs = c.envs := rfl

theorem cli_storage_opt_envs (c : Cmd) (n : String) (v : Option String) :
    (cli_storage_opt c n v).envs = c.envs := by
  cases v <;> rfl

theorem foldl_cli_opt_envs {α : Type} (flag : String) (f : α → String)
    (l : List α) (c : Cmd) :
    (l.foldl (fun c x => cli_opt c flag (some (f x))) c).envs = c.envs := by
  induction l generalizing c with
  | nil => rfl
  | cons x t ih => rw [List.foldl_cons, ih]; rfl

theorem foldl_cli_kv_envs (flag : String) (l : List (String × String)) (c : Cmd) :
    (l.foldl (fun c kv => cli_kv c flag kv.1 kv.2) c).envs = c.envs := by
  induction l generalizing c with
  | nil => rfl
  | cons kv t ih => rw [List.foldl_cons, ih]; rfl

theorem run_envs (p_ctx : Option PodmanCtx) :
    (commands.run p_ctx).envs = (commands.base p_ctx).envs := by
  cases p_ctx <;>
    simp [commands.run, cli_opt_envs, cli_storage_opt_envs, cmd_arg_envs]

theorem run_from_edf_envs (edf : EDF) (p_ctx : Option PodmanCtx)
    (c_ctx : ContainerCtx) (container_cmd : List String) :
    (commands.run_from_edf edf p_ctx c_ctx container_cmd).envs
      = (commands.base p_ctx).envs := by
  by_cases hw : edf.workdir.isEmpty <;>
    simp [commands.run_from_edf, hw, cli_flag_envs, cli_opt_envs, cli_kv_envs,
      cmd_arg_envs, cmd_argsAppend_envs, foldl_cli_opt_envs, foldl_cli_kv_envs,
      run_envs]

/-- C8: environment overrides reach only the child-process environment: the
compiled run argv is identical to the argv compiled from the same context with
the overrides removed, and the overrides land (in order) in the command's
environment list. -/
theorem env_overrides_frame (ctx : PodmanCtx) (edf : EDF) (c_ctx : ContainerCtx)
    (container_cmd : List String) :
    (commands.run_from_edf edf (some ctx) c_ctx container_cmd).args
      = (commands.run_from_edf edf (some { ctx with podman_env := none })
          c_ctx container_cmd).args
    ∧ (commands.run_from_edf edf (some ctx) c_ctx container_cmd).envs
      = ctx.podman_env.getD [] := by
  constructor
  · rw [run_from_edf_args, run_from_edf_args, run_args, run_args]
  · rw [run_from_edf_envs, base_envs]

/-- C9: the key=value encoder concatenates verbatim: at the byte level the
result is exactly the key bytes, one `=` byte (61), then the value bytes, with
no escaping of embedded `=` or non-text bytes; at the string level the
characters concatenate likewise, and in particular
`os_string_key_val "additionalimagestore" "/store"` is exactly
`additionalimagestore=/store`. -/
theorem key_val_encoding :
    (∀ key val : List Nat, os_string_key_val_bytes key val = key ++ 61 :: val)
    ∧ (∀ key val : String,
        (os_string_key_val key val).data = key.data ++ '=' :: val.data)
    ∧ os_string_key_val "additionalimagestore" "/store"
        = "additionalimagestore=/store" := by
  refine ⟨?_, ?_, by decide⟩
  · intro key val
    simp [os_string_key_val_bytes, os_string_push]
  · intro key val
    simp [os_string_key_val, String.data_append]

/-- C10: the facade operations pull, rmi, rm and stop return no value and
discard the external tool's outcome entirely: their result is `()` and does
not depend on what the spawned process does, including a failing exit. -/
theorem lifecycle_ops_discard_output (image name : String) (p_ctx : Option PodmanCtx)
    (exec1 exec2 : Cmd → Output) :
    pull exec1 image p_ctx = () ∧ pull exec1 image p_ctx = pull exec2 image p_ctx
    ∧ rmi exec1 image p_ctx = () ∧ rmi exec1 image p_ctx = rmi exec2 image p_ctx
    ∧ rm exec1 name p_ctx = () ∧ rm exec1 name p_ctx = rm exec2 name p_ctx
    ∧ stop exec1 name p_ctx = () ∧ stop exec1 name p_ctx = stop exec2 name p_ctx :=
  ⟨rfl, rfl, rfl, rfl, rfl, rfl, rfl, rfl⟩

/-- C4: compiling the migration-bridge invocation with a RuntimeContext whose
graph-root or read-only store path is absent panics before producing any
command (`none`), and the executing wrapper therefore never spawns a process:
its outcome is `none` for every possible external world. -/
theorem parallax_requires_paths (ppath : String) (ctx : PodmanCtx)
    (image action : String)
    (h : ctx.graphroot = none ∨ ctx.ro_store = none) :
    commands.parallax ppath ctx image action = none
    ∧ ∀ exec : Cmd → Output,
        parallax_execute_command exec ppath ctx image action = none := by
  have hp : commands.parallax ppath ctx image action = none := by
    rcases h with h | h
    · cases hr : ctx.ro_store <;> simp [commands.parallax, h, hr]
    · cases hg : ctx.graphroot <;> simp [commands.parallax, h, hg]
  exact ⟨hp, fun exec => by simp [parallax_execute_command, hp]⟩

/-- Witness for `parallax_requires_paths`: a context missing the store path. -/
theorem parallax_requires_paths_witness :
    commands.parallax "/usr/local/parallax"
        ⟨"/usr/bin/podman", none, some "/gr", none, none, none, none⟩ "img" "migrate"
      = none
    ∧ ∀ exec : Cmd → Output,
        parallax_execute_command exec "/usr/local/parallax"
          ⟨"/usr/bin/podman", none, some "/gr", none, none, none, none⟩ "img" "migrate"
        = none :=
  parallax_requires_paths "/usr/local/parallax"
    ⟨"/usr/bin/podman", none, some "/gr", none, none, none, none⟩ "img" "migrate"
    (Or.inr rfl)

/-- C3: inspect-based PID resolution: a non-zero exit yields an error whose
message contains the trimmed standard-error text; a zero exit parses the
trimmed stdout as an unsigned integer, with malformed output a parse error and
no fallback substituted; a stdout of `0` yields `0` as a valid result. -/
theorem get_container_pid_spec (out : Output) (name : String)
    (p_ctx : Option PodmanCtx) :
    (out.success = false →
      ∃ pre, get_container_pid (fun _ => out) name p_ctx
        = Except.error (PidError.inspectFailed (pre ++ rustTrim out.stderr)))
    ∧ (out.success = true → ∀ n, parseU32 (rustTrim out.stdout) = some n →
        get_container_pid (fun _ => out) name p_ctx = Except.ok n)
    ∧ (out.success = true → parseU32 (rustTrim out.stdout) = none →
        get_container_pid (fun _ => out) name p_ctx
          = Except.error PidError.parseFailed)
    ∧ (out.success = true → out.stdout = "0" →
        get_container_pid (fun _ => out) name p_ctx = Except.ok 0) := by
  refine ⟨?_, ?_, ?_, ?_⟩
  · intro hs
    exact ⟨"podman inspect failed: ", by simp [get_container_pid, hs]⟩
  · intro hs n hn
    simp [get_container_pid, hs, hn]
  · intro hs hn
    simp [get_container_pid, hs, hn]
  · intro hs h0
    have h : parseU32 (rustTrim out.stdout) = some 0 := by rw [h0]; decide
    simp [get_container_pid, hs, h]

/-- Witness for `get_container_pid_spec` on four concrete inspect outcomes. -/
theorem get_container_pid_spec_witness :
    (∃ pre, get_container_pid (fun _ => ⟨false, "", " boom\n"⟩) "cnt" none
        = Except.error (PidError.inspectFailed (pre ++ rustTrim " boom\n")))
    ∧ get_container_pid (fun _ => ⟨true, " 12345\n", ""⟩) "cnt" none
        = Except.ok 12345
    ∧ get_container_pid (fun _ => ⟨true, "abc", ""⟩) "cnt" none
        = Except.error PidError.parseFailed
    ∧ get_container_pid (fun _ => ⟨true, "0", ""⟩) "cnt" none = Except.ok 0 :=
  ⟨(get_container_pid_spec ⟨false, "", " boom\n"⟩ "cnt" none).1 rfl,
   (get_container_pid_spec ⟨true, " 12345\n", ""⟩ "cnt" none).2.1 rfl 12345 (by decide),
   (get_container_pid_spec ⟨true, "abc", ""⟩ "cnt" none).2.2.1 rfl (by decide),
   (get_container_pid_spec ⟨true, "0", ""⟩ "cnt" none).2.2.2 rfl rfl⟩

theorem parseDigits_append_nondigit (ds : List Char) (c : Char)
    (hc : c.isDigit = false) : parseDigits (ds ++ [c]) = none := by
  have hne : (ds ++ [c]).isEmpty = false := by cases ds <;> simp
  have hall : (ds ++ [c]).all (fun x => x.isDigit) = false := by
    simp [List.all_append, hc]
  simp [parseDigits, hne, hall]

theorem parseU32Chars_append_nondigit (cs : List Char) (c : Char)
    (hc : c.isDigit = false) : parseU32Chars (cs ++ [c]) = none := by
  cases cs with
  | nil =>
    by_cases hcp : c = '+'
    · subst hcp; simp [parseU32Chars, parseDigits]
    · have : (([] : List Char) ++ [c]).head? = some c := by simp
      simp only [parseU32Chars, List.nil_append, List.head?_cons]
      rw [if_neg (by simp [hcp])]
      simpa using parseDigits_append_nondigit [] c hc
  | cons a t =>
    have hconc : (a :: t) ++ [c] = a :: (t ++ [c]) := rfl
    by_cases ha : a = '+'
    · subst ha
      rw [hconc]
      simp only [parseU32Chars, List.head?_cons, List.tail_cons, if_pos rfl]
      exact parseDigits_append_nondigit t c hc
    · rw [hconc]
      simp only [parseU32Chars, List.head?_cons]
      rw [if_neg (by simp [ha])]
      exact parseDigits_append_nondigit (a :: t) c hc

theorem isWhitespace_not_isDigit (c : Char) (h : c.isWhitespace = true) :
    c.isDigit = false := by
  simp only [Char.isWhitespace, Bool.or_eq_true, decide_eq_true_eq] at h
  rcases h with ((h | h) | h) | h <;> subst h <;> decide

/-- C2 counterexample: a pidfile whose content is `5` followed by a newline
makes pidfile-based resolution fail with a parse error instead of returning 5,
so trailing whitespace is not ignored as the claim states. -/
theorem pidfile_trailing_whitespace_counterexample :
    get_container_pid_from_default_file execNull fsNewline "c1" (some "/rr")
      = Except.error PidError.parseFailed
    ∧ get_container_pid_from_default_file execNull fsNewline "c1" (some "/rr")
      ≠ Except.ok 5 := by
  have h : get_container_pid_from_default_file execNull fsNewline "c1" (some "/rr")
      = Except.error PidError.parseFailed := rfl
  exact ⟨h, by rw [h]; exact fun hk => Except.noConfusion hk⟩

/-- C2 (amended): pidfile resolution with a supplied run-root reads exactly
the path `<runroot>/overlay-containers/<container-id>/userdata/pidfile` (the
result depends on the filesystem only at that path); a missing or unreadable
file yields an I/O error; content that parses as an unsigned 32-bit integer
with no surrounding whitespace returns that integer; non-parsing content — in
particular valid digits followed by a trailing whitespace character — yields a
parse error. -/
theorem pidfile_resolution (exec : Cmd → Output) (fs : String → Option String)
    (cid rr : String) :
    (∀ fs' : String → Option String,
        fs' (rr ++ "/overlay-containers/" ++ cid ++ "/userdata/pidfile")
          = fs (rr ++ "/overlay-containers/" ++ cid ++ "/userdata/pidfile") →
        get_container_pid_from_default_file exec fs' cid (some rr)
          = get_container_pid_from_default_file exec fs cid (some rr))
    ∧ (fs (rr ++ "/overlay-containers/" ++ cid ++ "/userdata/pidfile") = none →
        get_container_pid_from_default_file exec fs cid (some rr)
          = Except.error PidError.ioFailed)
    ∧ (∀ content n,
        fs (rr ++ "/overlay-containers/" ++ cid ++ "/userdata/pidfile")
          = some content →
        parseU32 content = some n →
        get_container_pid_from_default_file exec fs cid (some rr) = Except.ok n)
    ∧ (∀ content,
        fs (rr ++ "/overlay-containers/" ++ cid ++ "/userdata/pidfile")
          = some content →
        parseU32 content = none →
        get_container_pid_from_default_file exec fs cid (some rr)
          = Except.error PidError.parseFailed)
    ∧ (∀ content c n,
        fs (rr ++ "/overlay-containers/" ++ cid ++ "/userdata/pidfile")
          = some (String.mk (content.data ++ [c])) →
        c.isWhitespace = true →
        parseU32 content = some n →
        get_container_pid_from_default_file exec fs cid (some rr)
          = Except.error PidError.parseFailed) := by
  refine ⟨?_, ?_, ?_, ?_, ?_⟩
  · intro fs' hfs
    simp [get_container_pid_from_default_file, hfs]
  · intro hnone
    simp [get_container_pid_from_default_file, hnone]
  · intro content n hsome hparse
    simp [get_container_pid_from_default_file, hsome, hparse]
  · intro content hsome hparse
    simp [get_container_pid_from_default_file, hsome, hparse]
  · intro content c n hsome hws hparse
    have hnone : parseU32 (String.mk (content.data ++ [c])) = none :=
      parseU32Chars_append_nondigit content.data c (isWhitespace_not_isDigit c hws)
    simp [get_container_pid_from_default_file, hsome, hnone]

/-- Witness for `pidfile_resolution` on two concrete filesystems. -/
theorem pidfile_resolution_witness :
    get_container_pid_from_default_file execNull fsPlain "c1" (some "/rr")
      = Except.ok 51234
    ∧ get_container_pid_from_default_file execNull fsNewline "c1" (some "/rr")
      = Except.error PidError.parseFailed :=
  ⟨(pidfile_resolution execNull fsPlain "c1" "/rr").2.2.1 "51234" 51234
      (by decide) (by decide),
   (pidfile_resolution execNull fsNewline "c1" "/rr").2.2.2.2 "5" '\n' 5
      (by decide) (by decide) (by decide)⟩
